import Mathlib

/-!
Shallow embedding of the LCD driver in src/attendance-pi/src/LCD.cpp.

The driver talks to a 16x2 character LCD over an I2C IO expander.  Its
global state is three booleans (backlight, regSelect, readWrite).  Each
call to LCD::write converts a 4-bit nibble plus the control bits into one
frame byte and hands three raw bytes (enable low, enable high, enable low)
to bcm2835_i2c_write.  Higher operations (writeChar, writeMessage, clear,
home, init) are modelled as functions from the driver state to the new
state together with the trace of nibble-write events they perform; the
function framesOf maps one nibble-write event to the raw bytes it puts on
the bus.  Machine bytes are modelled as Nat with explicit reduction
modulo 256 where the C code truncates.
-/

namespace LCD

/-- Control bit masks, from the #define lines at the top of LCD.cpp. -/
def BACKLIGHT_BIT : Nat := 0b00001000

/-- Enable (latch) bit mask. -/
def ENABLE_BIT : Nat := 0b00000100

/-- Read/write bit mask (never set by the driver). -/
def RDWR_BIT : Nat := 0b00000010

/-- Register-select bit mask. -/
def REGSELECT_BIT : Nat := 0b00000001

/-- The three global control booleans of namespace LCD (LCD.cpp lines
68-72): backlight on/off, register selector (true = character register,
false = command register) and the unused read/write flag. -/
structure DisplayState where
  backlight : Bool
  regSelect : Bool
  readWrite : Bool
deriving DecidableEq, Repr, Fintype

/-- One call of LCD::write, recorded together with the control-bit state
the globals held when the call was made.  `nib` is the argument byte of
the call (the source shifts it left by 4, so only its low 4 bits reach the
wire). -/
structure NEvent where
  rs : Bool
  bl : Bool
  nib : Nat
deriving DecidableEq, Repr

/-- Record one LCD::write call made while the globals are `s`. -/
def mkEvent (s : DisplayState) (n : Nat) : NEvent :=
  ⟨s.regSelect, s.backlight, n⟩

/-- Frame assembly of LCD::write (lines 148-156): shift the argument left
by 4 (an 8-bit char, hence reduction modulo 256), then add the backlight
bit if the backlight flag is set and the register-select bit if the
register-select flag is set. -/
def frameOf (e : NEvent) : Nat :=
  let b1 := (e.nib <<< 4) % 256
  let b2 := b1 + (if e.bl then BACKLIGHT_BIT else 0)
  b2 + (if e.rs then REGSELECT_BIT else 0)

/-- The three raw bytes one LCD::write call hands to writeRaw (lines
157-167): the frame with enable low, the frame with the enable bit set,
the frame with enable low again. -/
def framesOf (e : NEvent) : List Nat :=
  let f := frameOf e
  [f, f ||| ENABLE_BIT, f]

/-- LCD::writeRaw (lines 198-203): sends one byte through
bcm2835_i2c_write and returns the status that call reports.  The transport
is modelled as the stream of statuses that successive bus writes return,
indexed by how many bus writes happened before. -/
def writeRaw (transport : Nat → Int) (k : Nat) (b : Nat) : Int :=
  transport k

/-- LCD::write (lines 148-168) against an explicit transport.  The three
writeRaw statuses are bound and then dropped, exactly as the void source
function does: its only observable result is the list of bytes put on the
bus, and it carries no status and no error value. -/
def writeT (transport : Nat → Int) (k : Nat) (n : Nat) (s : DisplayState) :
    List Nat :=
  let e := mkEvent s n
  let f := frameOf e
  let _st1 := writeRaw transport k f
  let _st2 := writeRaw transport (k + 1) (f ||| ENABLE_BIT)
  let _st3 := writeRaw transport (k + 2) f
  framesOf e

/-- LCD::encodeChar (lines 270-375), translated case by case: each case
label of the source switch becomes one equality test on the scrutinee, in
source order, with the switch default as the final branch.  Inputs are
byte values of the C char argument.  The source case between the entries
for 0x5B and 0x5D is the three-byte sequence EF BF BD inside a character
literal; as a GCC multicharacter literal its value is 0xEFBFBD = 15712189,
which no 8-bit char can equal, so that case is unreachable and the byte
0x5C falls through to the default.  The default returns 0b00111111, the
code of the question mark. -/
def encodeChar (c : Nat) : Nat :=
  if c = 32 then 0b00100000
  else if c = 33 then 0b00100001
  else if c = 34 then 0b00100010
  else if c = 35 then 0b00100011
  else if c = 36 then 0b00100100
  else if c = 37 then 0b00100101
  else if c = 38 then 0b00100110
  else if c = 39 then 0b00100111
  else if c = 40 then 0b00101000
  else if c = 41 then 0b00101001
  else if c = 42 then 0b00101010
  else if c = 43 then 0b00101011
  else if c = 44 then 0b00101100
  else if c = 45 then 0b00101101
  else if c = 46 then 0b00101110
  else if c = 47 then 0b00101111
  else if c = 48 then 0b00110000
  else if c = 49 then 0b00110001
  else if c = 50 then 0b00110010
  else if c = 51 then 0b00110011
  else if c = 52 then 0b00110100
  else if c = 53 then 0b00110101
  else if c = 54 then 0b00110110
  else if c = 55 then 0b00110111
  else if c = 56 then 0b00111000
  else if c = 57 then 0b00111001
  else if c = 58 then 0b00111010
  else if c = 59 then 0b00111011
  else if c = 60 then 0b00111100
  else if c = 61 then 0b00111101
  else if c = 62 then 0b00111110
  else if c = 63 then 0b00111111
  else if c = 64 then 0b01000000
  else if c = 65 then 0b01000001
  else if c = 66 then 0b01000010
  else if c = 67 then 0b01000011
  else if c = 68 then 0b01000100
  else if c = 69 then 0b01000101
  else if c = 70 then 0b01000110
  else if c = 71 then 0b01000111
  else if c = 72 then 0b01001000
  else if c = 73 then 0b01001001
  else if c = 74 then 0b01001010
  else if c = 75 then 0b01001011
  else if c = 76 then 0b01001100
  else if c = 77 then 0b01001101
  else if c = 78 then 0b01001110
  else if c = 79 then 0b01001111
  else if c = 80 then 0b01010000
  else if c = 81 then 0b01010001
  else if c = 82 then 0b01010010
  else if c = 83 then 0b01010011
  else if c = 84 then 0b01010100
  else if c = 85 then 0b01010101
  else if c = 86 then 0b01010110
  else if c = 87 then 0b01010111
  else if c = 88 then 0b01011000
  else if c = 89 then 0b01011001
  else if c = 90 then 0b01011010
  else if c = 91 then 0b01011011
  else if c = 15712189 then 0b01011100
  else if c = 93 then 0b01011101
  else if c = 94 then 0b01011110
  else if c = 95 then 0b01011111
  else if c = 96 then 0b01100000
  else if c = 97 then 0b01100001
  else if c = 98 then 0b01100010
  else if c = 99 then 0b01100011
  else if c = 100 then 0b01100100
  else if c = 101 then 0b01100101
  else if c = 102 then 0b01100110
  else if c = 103 then 0b01100111
  else if c = 104 then 0b01101000
  else if c = 105 then 0b01101001
  else if c = 106 then 0b01101010
  else if c = 107 then 0b01101011
  else if c = 108 then 0b01101100
  else if c = 109 then 0b01101101
  else if c = 110 then 0b01101110
  else if c = 111 then 0b01101111
  else if c = 112 then 0b01110000
  else if c = 113 then 0b01110001
  else if c = 114 then 0b01110010
  else if c = 115 then 0b01110011
  else if c = 116 then 0b01110100
  else if c = 117 then 0b01110101
  else if c = 118 then 0b01110110
  else if c = 119 then 0b01110111
  else if c = 120 then 0b01111000
  else if c = 121 then 0b01111001
  else if c = 122 then 0b01111010
  else if c = 123 then 0b01111011
  else if c = 124 then 0b01111100
  else if c = 125 then 0b01111101
  else 0b00111111

/-- The split phase of LCD::writeChar (lines 182-188): mask out the high
nibble and shift it down, mask out the low nibble, and issue the two
LCD::write calls in that order while the globals are `s`. -/
def writeByteEvents (ccode : Nat) (s : DisplayState) : List NEvent :=
  let m1 := (ccode &&& 0b11110000) >>> 4
  let m2 := ccode &&& 0b00001111
  [mkEvent s m1, mkEvent s m2]

/-- LCD::writeChar (lines 178-189): encode the character, set the
register selector to the character register, then write the two nibbles
high first. -/
def writeChar (c : Nat) (s : DisplayState) : DisplayState × List NEvent :=
  let s1 : DisplayState := { s with regSelect := true }
  (s1, writeByteEvents (encodeChar c) s1)

/-- LCD::writeMessage (lines 212-223): walk the bytes of the message,
stop at a zero byte (the C string terminator, here also at the end of the
modelling list), and writeChar each byte. -/
def writeMessage : List Nat → DisplayState → DisplayState × List NEvent
  | [], s => (s, [])
  | c :: rest, s =>
    if c = 0 then (s, [])
    else
      let r1 := writeChar c s
      let r2 := writeMessage rest r1.1
      (r2.1, r1.2 ++ r2.2)

/-- LCD::clear (lines 230-236): set the register selector to the command
register, then write the nibbles 0b0000 and 0b0001. -/
def clear (s : DisplayState) : DisplayState × List NEvent :=
  let s1 : DisplayState := { s with regSelect := false }
  (s1, [mkEvent s1 0b0000, mkEvent s1 0b0001])

/-- LCD::home (lines 242-248): set the register selector to the command
register, then write the nibbles 0b0000 and 0b0010. -/
def home (s : DisplayState) : DisplayState × List NEvent :=
  let s1 : DisplayState := { s with regSelect := false }
  (s1, [mkEvent s1 0b0000, mkEvent s1 0b0010])

/-- LCD::goTo (lines 257-259): the function body is empty, so the call
changes nothing and writes nothing. -/
def goTo (pos : Int) (s : DisplayState) : DisplayState × List NEvent :=
  (s, [])

/-- LCD::destroy (lines 126-134): ends the I2C connection; it touches none
of the control globals and performs no LCD::write call. -/
def destroy (s : DisplayState) : DisplayState × List NEvent :=
  (s, [])

/-- The error LCD::init raises (as std::runtime_error) when
bcm2835_i2c_begin reports failure. -/
inductive InitError where
  | i2cBeginFailed
deriving DecidableEq, Repr

/-- The byte values of the self-test string TESTING TESTING that
LCD::init displays (line 115). -/
def TEST_MESSAGE : List Nat :=
  [84, 69, 83, 84, 73, 78, 71, 32, 84, 69, 83, 84, 73, 78, 71]

/-- The ten nibbles LCD::init writes in command mode (lines 96-109), in
source order: set 4-bit mode (0b0010); 2-line 5x8 function set (0b1000);
display off, cursor off, blink off (0b0000 0b1000); clear display and
home (0b0000 0b0001); entry mode, cursor increments right, no shift
(0b0000 0b0110); display on (0b0000 0b1100). -/
def INIT_NIBBLES : List Nat :=
  [0b0010, 0b1000, 0b0000, 0b1000, 0b0000, 0b0001,
   0b0000, 0b0110, 0b0000, 0b1100]

/-- Modelled from the spec: LCD::init calls a two-argument overload
writeMessage(message, pos) whose declaration lives in LCD.h, a file absent
from src/.  Section 4.4 of the design specifies that writeMessage sets the
register selector to the character register and writes each character of
the text in order through the encoder, and gives it no command-register
write; it is therefore modelled as the one-argument writeMessage of
LCD.cpp, the position argument having no effect on the event stream. -/
def writeMessageAt (msg : List Nat) (pos : Int) (s : DisplayState) :
    DisplayState × List NEvent :=
  writeMessage msg s

/-- LCD::init (lines 79-119).  `beginOk` is the result of
bcm2835_i2c_begin.  On failure the function throws before touching any
global and before any LCD::write call, so the result is the error, the
unchanged state and the empty trace.  On success it clears the register
selector, writes the ten configuration nibbles, turns the backlight flag
on, and writes the self-test message. -/
def init (beginOk : Bool) (s : DisplayState) :
    Except InitError Unit × DisplayState × List NEvent :=
  if !beginOk then
    (Except.error InitError.i2cBeginFailed, s, [])
  else
    let s1 : DisplayState := { s with regSelect := false }
    let cmdEvents := INIT_NIBBLES.map (mkEvent s1)
    let s2 : DisplayState := { s1 with backlight := true }
    let r := writeMessageAt TEST_MESSAGE 0 s2
    (Except.ok (), r.1, cmdEvents ++ r.2)

/-- The nibbles of the command-register write calls of a trace, in
order: keep the events made with the register selector on the command
register and read off their nibble. -/
def commandNibbles (t : List NEvent) : List Nat :=
  (t.filter (fun e => !e.rs)).map (fun e => e.nib)

/-- A transport whose every single-byte write reports failure. -/
def failTransport : Nat → Int := fun _ => -1

/-- A transport whose every single-byte write reports success. -/
def okTransport : Nat → Int := fun _ => 0

/-- Every nibble-write event of writeMessage is made with the register
selector on the character register, because writeChar sets it before its
two write calls. -/
theorem writeMessage_trace_rs (msg : List Nat) (s : DisplayState) :
    ∀ e ∈ (writeMessage msg s).2, e.rs = true := by
  induction msg generalizing s with
  | nil => intro e he; simp [writeMessage] at he
  | cons c rest ih =>
    intro e he
    by_cases hc : c = 0
    · simp [writeMessage, hc] at he
    · simp only [writeMessage, if_neg hc] at he
      rcases List.mem_append.mp he with h1 | h2
      · simp only [writeChar, writeByteEvents, mkEvent, List.mem_cons,
          List.not_mem_nil, or_false] at h1
        rcases h1 with rfl | rfl <;> rfl
      · exact ih _ _ h2

/-- writeMessage performs two nibble writes per byte written before the
terminator. -/
theorem writeMessage_trace_length (msg : List Nat) (s : DisplayState)
    (h : (0 : Nat) ∉ msg) :
    ((writeMessage msg s).2).length = 2 * msg.length := by
  induction msg generalizing s with
  | nil => simp [writeMessage]
  | cons c rest ih =>
    have hc : ¬ c = 0 := by
      intro hh
      exact h (by simp [hh])
    have h2 : (0 : Nat) ∉ rest := fun hr => h (List.mem_cons_of_mem _ hr)
    simp only [writeMessage, if_neg hc, writeChar, writeByteEvents,
      List.length_append, List.length_cons, List.length_nil, ih _ h2]
    omega

/-- For a message without the zero terminator byte inside, the trace of
writeMessage is, character by character in message order, the two
nibble-write events of the encoded character (high nibble then low
nibble), each made with the register selector on the character register
and the current backlight flag. -/
theorem writeMessage_trace_eq (msg : List Nat) (s : DisplayState)
    (h : (0 : Nat) ∉ msg) :
    (writeMessage msg s).2 =
      msg.flatMap (fun c =>
        writeByteEvents (encodeChar c) { s with regSelect := true }) := by
  induction msg generalizing s with
  | nil => simp [writeMessage]
  | cons c rest ih =>
    have hc : ¬ c = 0 := by
      intro hh
      exact h (by simp [hh])
    have h2 : (0 : Nat) ∉ rest := fun hr => h (List.mem_cons_of_mem _ hr)
    simp only [writeMessage, if_neg hc, writeChar, List.flatMap_cons]
    exact congrArg _ (ih { s with regSelect := true } h2)

/-- writeMessage never touches the backlight flag or the read/write
flag. -/
theorem writeMessage_preserves (msg : List Nat) (s : DisplayState) :
    (writeMessage msg s).1.backlight = s.backlight ∧
      (writeMessage msg s).1.readWrite = s.readWrite := by
  induction msg generalizing s with
  | nil => exact ⟨rfl, rfl⟩
  | cons c rest ih =>
    by_cases hc : c = 0
    · simp [writeMessage, hc]
    · simpa only [writeMessage, if_neg hc, writeChar] using
        ih { s with regSelect := true }

set_option maxRecDepth 4096 in
/-- The nibble masks of the split phase of LCD::writeChar compute
division and remainder by 16 on every byte. -/
theorem split_arith : ∀ code : Fin 256,
    (code.val &&& 0b11110000) >>> 4 = code.val / 16 ∧
      code.val &&& 0b00001111 = code.val % 16 := by
  decide

/-- C1, counterexample.  The claim says a failing status reported by the
single-byte I2C write during a nibble write is surfaced as a hardware I/O
error to the caller of the LCD operation and is never swallowed.  On the
code this is false: LCD::write is void and drops the three statuses
writeRaw hands back, so a run in which every bus write fails is
indistinguishable, to any caller, from a fully successful run — same
emitted bytes, no error value anywhere. -/
theorem c1_counterexample :
    writeT failTransport 0 0 ⟨false, false, false⟩ =
      writeT okTransport 0 0 ⟨false, false, false⟩ ∧
    writeT failTransport 0 0 ⟨false, false, false⟩ = [0, ENABLE_BIT, 0] :=
  ⟨rfl, rfl⟩

/-- C1, amended.  writeRaw returns the transport status to its immediate
caller, but LCD::write discards all three statuses: its observable result
is the same under every transport, it emits exactly the three latch
frames once each (so there is no automatic retry), and it surfaces no
error to the caller of the LCD operation. -/
theorem c1_write_discards_status :
    ∀ (tr tr2 : Nat → Int) (k k2 n : Nat) (s : DisplayState),
      writeRaw tr k (frameOf (mkEvent s n)) = tr k ∧
      writeT tr k n s = writeT tr2 k2 n s ∧
      writeT tr k n s = framesOf (mkEvent s n) ∧
      (writeT tr k n s).length = 3 :=
  fun _ _ _ _ _ _ => ⟨rfl, rfl, rfl, rfl⟩

/-- C2, counterexample.  The byte 0x5C = 92, the backslash, lies in the
printable range from 32 (space) to 125 (the closing brace), yet
encodeChar maps it to the fallback code 63 of the question mark and not
to 92: the source case for glyph 0x5C is a multicharacter literal no
8-bit char can match. -/
theorem c2_counterexample :
    encodeChar 92 = 63 ∧ (92 : Nat) ≠ 63 ∧ 32 ≤ 92 ∧ 92 ≤ 125 := by
  decide

set_option maxRecDepth 4096 in
/-- C2, amended.  encodeChar is a deterministic, pure, total function; on
every byte in the printable range 32 to 125 other than 92 it returns the
ASCII code of the character unchanged as the glyph code, and on the byte
92 and on every byte outside that range it returns the fallback glyph
code 0b00111111 of the question mark. -/
theorem c2_encodeChar_table :
    ∀ c : Fin 256,
      encodeChar c.val =
        if 32 ≤ c.val ∧ c.val ≤ 125 ∧ c.val ≠ 92 then c.val
        else 0b00111111 := by
  decide

/-- C3.  One nibble write emits exactly 3 bytes in order: the frame with
enable low, the frame with enable high, the frame with enable low again;
the frame carries the 4-bit nibble in bits 7-4, has the backlight bit
(bit 3) set exactly when the backlight flag is set, the register-select
bit (bit 0) set exactly when the register selector is on the character
register, the read/write bit (bit 1) always clear, and the middle frame
differs from the outer frames exactly in the enable bit (bit 2). -/
theorem c3_write_frames :
    ∀ (n : Fin 16) (bl rs : Bool),
      framesOf ⟨rs, bl, n.val⟩ =
        [frameOf ⟨rs, bl, n.val⟩,
         frameOf ⟨rs, bl, n.val⟩ ||| ENABLE_BIT,
         frameOf ⟨rs, bl, n.val⟩] ∧
      (framesOf ⟨rs, bl, n.val⟩).length = 3 ∧
      frameOf ⟨rs, bl, n.val⟩ >>> 4 = n.val ∧
      (frameOf ⟨rs, bl, n.val⟩).testBit 3 = bl ∧
      (frameOf ⟨rs, bl, n.val⟩).testBit 0 = rs ∧
      (frameOf ⟨rs, bl, n.val⟩).testBit 1 = false ∧
      (frameOf ⟨rs, bl, n.val⟩).testBit 2 = false ∧
      (frameOf ⟨rs, bl, n.val⟩ ||| ENABLE_BIT).testBit 2 = true ∧
      (frameOf ⟨rs, bl, n.val⟩ ||| ENABLE_BIT) ^^^ frameOf ⟨rs, bl, n.val⟩ =
        ENABLE_BIT := by
  decide

/-- C4.  The claim says goTo issues a DDRAM address-set command computed
from the position.  The body of LCD::goTo is empty: for every position it
performs no write call and changes no state, so no address-set command is
ever issued. -/
theorem c4_goTo_noop :
    ∀ (pos : Int) (s : DisplayState), goTo pos s = (s, []) :=
  fun _ _ => rfl

/-- C5.  clear sets the register selector to the command register and
issues the clear-display command byte 0b00000001 as the two nibble
writes 0b0000 then 0b0001; the register-select bit is clear in every one
of the six emitted frames, and the trace is not empty, so clear is not a
no-op. -/
theorem c5_clear_command :
    ∀ s : DisplayState,
      clear s = ({ s with regSelect := false },
        [⟨false, s.backlight, 0b0000⟩, ⟨false, s.backlight, 0b0001⟩]) ∧
      (clear s).2 ≠ [] ∧
      ∀ e ∈ (clear s).2, e.rs = false ∧
        ∀ f ∈ framesOf e, f.testBit 0 = false := by
  intro s
  obtain ⟨bl, rs0, rw⟩ := s
  cases bl <;> cases rs0 <;> cases rw <;> decide

/-- C6.  When the transport starts successfully, the nibbles init writes
in command mode are exactly, in order: set 4-bit mode (0b0010); 2-line
5x8 function set (0b1000); display off, cursor off, blink off
(0b0000 0b1000); clear display and home (0b0000 0b0001); entry mode with
the cursor incrementing right and no display shift (0b0000 0b0110); and
last of all display on (0b0000 0b1100) — so the display-on command is
never issued before the off, clear and entry-mode commands. -/
theorem c6_init_command_order :
    ∀ s : DisplayState,
      commandNibbles (init true s).2.2 =
        [0b0010, 0b1000, 0b0000, 0b1000, 0b0000, 0b0001,
         0b0000, 0b0110, 0b0000, 0b1100] := by
  intro s
  obtain ⟨bl, rs0, rw⟩ := s
  cases bl <;> cases rs0 <;> cases rw <;> decide

/-- C7.  For a message without the zero terminator byte inside,
writeMessage performs exactly two nibble writes per character — in
particular zero nibble writes for the empty message — its trace is,
character by character in message order, exactly the high and low nibble
of the encoded character, and every one of those nibble writes is made
with the register selector on the character register. -/
theorem c7_writeMessage_writes (msg : List Nat) (s : DisplayState)
    (h : (0 : Nat) ∉ msg) :
    (writeMessage msg s).2 =
      msg.flatMap (fun c =>
        writeByteEvents (encodeChar c) { s with regSelect := true }) ∧
      ((writeMessage msg s).2).length = 2 * msg.length ∧
      ∀ e ∈ (writeMessage msg s).2, e.rs = true :=
  ⟨writeMessage_trace_eq msg s h, writeMessage_trace_length msg s h,
   writeMessage_trace_rs msg s⟩

/-- C7, witness: writing HI (bytes 72, 73) from the start state performs
exactly 4 nibble writes, all in character mode, carrying the nibbles of
the encoded H and then of the encoded I. -/
theorem c7_writeMessage_writes_witness :
    ((0 : Nat) ∉ [72, 73]) ∧
      ((writeMessage [72, 73] ⟨false, false, false⟩).2 =
          ([72, 73] : List Nat).flatMap (fun c =>
            writeByteEvents (encodeChar c)
              { (⟨false, false, false⟩ : DisplayState) with
                  regSelect := true }) ∧
        ((writeMessage [72, 73] ⟨false, false, false⟩).2).length =
          2 * ([72, 73] : List Nat).length ∧
        ∀ e ∈ (writeMessage [72, 73] ⟨false, false, false⟩).2,
          e.rs = true) :=
  ⟨by decide,
   c7_writeMessage_writes [72, 73] ⟨false, false, false⟩ (by decide)⟩

/-- C8.  Writing one 8-bit glyph or command code is exactly two nibble
writes: first the high nibble (bits 7-4, the code divided by 16), then
the low nibble (bits 3-0, the code modulo 16); and writeChar is exactly
this split applied to the encoded character after the register selector
is set to the character register. -/
theorem c8_writeByte_split :
    ∀ (code : Fin 256) (s : DisplayState),
      writeByteEvents code.val s =
        [mkEvent s (code.val / 16), mkEvent s (code.val % 16)] ∧
      (writeByteEvents code.val s).length = 2 ∧
      writeChar code.val s =
        ({ s with regSelect := true },
         writeByteEvents (encodeChar code.val)
           { s with regSelect := true }) := by
  intro code s
  obtain ⟨h1, h2⟩ := split_arith code
  refine ⟨?_, rfl, rfl⟩
  show [mkEvent s ((code.val &&& 0b11110000) >>> 4),
        mkEvent s (code.val &&& 0b00001111)] =
      [mkEvent s (code.val / 16), mkEvent s (code.val % 16)]
  rw [h1, h2]

/-- C9.  If the transport begin fails, init returns the initialization
error with the state unchanged — the backlight and register-select flags
keep their previous values — and performs no write call; if begin
succeeds, no initialization error is signalled at that step. -/
theorem c9_init_begin :
    ∀ s : DisplayState,
      init false s = (Except.error InitError.i2cBeginFailed, s, []) ∧
      (init true s).1 = Except.ok () :=
  fun _ => ⟨rfl, rfl⟩

/-- C10.  writeChar, writeMessage, clear and home leave the backlight
flag and the read/write flag unchanged; goTo and destroy change nothing
at all; and init (on a successful begin) does set the backlight flag, so
among the driver operations only init modifies it. -/
theorem c10_frame_bits_preserved :
    ∀ (s : DisplayState) (c : Nat) (msg : List Nat) (pos : Int),
      (writeChar c s).1.backlight = s.backlight ∧
      (writeChar c s).1.readWrite = s.readWrite ∧
      (writeMessage msg s).1.backlight = s.backlight ∧
      (writeMessage msg s).1.readWrite = s.readWrite ∧
      (clear s).1.backlight = s.backlight ∧
      (clear s).1.readWrite = s.readWrite ∧
      (home s).1.backlight = s.backlight ∧
      (home s).1.readWrite = s.readWrite ∧
      (goTo pos s).1 = s ∧
      (destroy s).1 = s ∧
      (init true s).2.1.backlight = true := by
  intro s c msg pos
  refine ⟨rfl, rfl, (writeMessage_preserves msg s).1,
    (writeMessage_preserves msg s).2, rfl, rfl, rfl, rfl, rfl, rfl, ?_⟩
  exact (writeMessage_preserves TEST_MESSAGE ⟨true, false, s.readWrite⟩).1

end LCD

